import Mathlib

/-
Shallow embedding of the goscaleio client library core
(repository AnshumanPradipPatil1506/goscaleio).

The embedding covers:
  * the SDC kernel-driver query channel (DrvCfgQueryGUID, DrvCfgQueryRescan,
    DrvCfgQuerySystems, the ioctl op-code packing _IOC / _IO) from the
    drv_cfg source file;
  * the REST session layer (Authenticate, getVersion, extractString,
    getJSONWithRetry, getStringWithRetry) from api.go;
  * the thin resource facades GetSdcById / ChangeSdcName (sdc source file)
    and GetProtectionDomain / FindProtectionDomain (protectiondomain
    source file).

Modelling conventions:
  * Go byte / uint16 / uint32 / uint64 values are Nat (with explicit % 256
    where the code reinterprets a single byte); int64 is Int.
  * Go strings are Lean Strings; where character-level reasoning is needed
    the model works on List Char.
  * External effects (HTTP transport, device open, ioctl) are passed in as
    explicit Except-valued arguments: the value the effect would have
    produced.  Package-level globals read by a function (SCINIMockMode)
    are passed as explicit arguments.
  * Go functions that can panic (array indexing with a runtime bounds
    check) land in GoOutcome, which has an explicit panic constructor.
-/

set_option autoImplicit false
set_option linter.unusedVariables false

/-- Decidable equality for Except, used by the derived instances of the
structures below. -/
instance {ε α : Type} [DecidableEq ε] [DecidableEq α] :
    DecidableEq (Except ε α) := fun x y =>
  match x, y with
  | .error a, .error b =>
    if h : a = b then .isTrue (h ▸ rfl)
    else .isFalse (fun hh => h (Except.error.inj hh))
  | .error _, .ok _ => .isFalse (fun hh => Except.noConfusion hh)
  | .ok _, .error _ => .isFalse (fun hh => Except.noConfusion hh)
  | .ok a, .ok b =>
    if h : a = b then .isTrue (h ▸ rfl)
    else .isFalse (fun hh => h (Except.ok.inj hh))

/-- Outcome of a Go function that may return a value, return an error, or
panic at a runtime bounds check.  Inhabited by ok. -/
inductive GoOutcome (α : Type) where
  | ok (val : α)
  | error (msg : String)
  | panic (msg : String)
  deriving DecidableEq

def goIsOk {α : Type} : GoOutcome α → Bool
  | .ok _ => true
  | _ => false

def goIsError {α : Type} : GoOutcome α → Bool
  | .error _ => true
  | _ => false

def goIsPanic {α : Type} : GoOutcome α → Bool
  | .panic _ => true
  | _ => false

def exceptIsOk {ε α : Type} : Except ε α → Bool
  | .ok _ => true
  | _ => false

def exceptIsError {ε α : Type} : Except ε α → Bool
  | .error _ => true
  | _ => false

/- ------------------------------------------------------------------
   Hex formatting helpers used by the driver decode paths.
   ------------------------------------------------------------------ -/

/-- Lower-case hex digit for a value in 0..15 (as encoding/hex produces). -/
def hexDigitLower (n : Nat) : Char :=
  if n < 10 then Char.ofNat (48 + n) else Char.ofNat (87 + n)

/-- Upper-case hex digit for a value in 0..15. -/
def hexDigitUpper (n : Nat) : Char :=
  if n < 10 then Char.ofNat (48 + n) else Char.ofNat (55 + n)

/-- Two upper-case hex characters for one byte. -/
def byteHexUpper (b : Nat) : List Char :=
  [hexDigitUpper (b / 16 % 16), hexDigitUpper (b % 16)]

/-- Go fmt "%8.8x" applied to a uint32 value: exactly eight lower-case hex
digits, zero padded.  (For values < 2^32 width and precision 8 coincide.) -/
def hex8 (n : Nat) : String :=
  ⟨[hexDigitLower (n / 16 ^ 7 % 16), hexDigitLower (n / 16 ^ 6 % 16),
    hexDigitLower (n / 16 ^ 5 % 16), hexDigitLower (n / 16 ^ 4 % 16),
    hexDigitLower (n / 16 ^ 3 % 16), hexDigitLower (n / 16 ^ 2 % 16),
    hexDigitLower (n / 16 % 16), hexDigitLower (n % 16)]⟩

/-- Decoding of the 16 raw GUID bytes, as the source performs it:
hex.EncodeToString over the 16 bytes, uuid.Parse of the resulting 32
lower-case hex characters (which always succeeds on such input; the source
ignores the parse error anyway), uuid.String() producing the canonical
8-4-4-4-12 lower-case form, and strings.ToUpper.  The composition is the
upper-case hex encoding with hyphens after 8, 12, 16 and 20 hex digits. -/
def guidFromBytes (bs : List Nat) : String :=
  let h := (bs.map byteHexUpper).flatten
  ⟨h.take 8 ++ '-' :: ((h.drop 8).take 4 ++ '-' ::
    ((h.drop 12).take 4 ++ '-' :: ((h.drop 16).take 4 ++ '-' :: h.drop 20)))⟩

/- ------------------------------------------------------------------
   Binary query codec: op-code packing and driver constants.
   (drv_cfg source file, lines 16-25 and 207-221.)
   ------------------------------------------------------------------ -/

/-- Source: func _IOC(dir, t, nr, size uintptr) uintptr
  { return (dir << 30) | (t << 8) | nr | (size << 16) }. -/
def _IOC (dir t nr size : Nat) : Nat :=
  (dir <<< 30) ||| (t <<< 8) ||| nr ||| (size <<< 16)

/-- Source: func _IO(t, nr uintptr) uintptr { return _IOC(0x0, t, nr, 0) }. -/
def _IO (t nr : Nat) : Nat := _IOC 0 t nr 0

/-- Source constant _IOCTLBase = the character literal for lower-case a,
whose code point is 97. -/
def _IOCTLBase : Nat := 97

/-- Source constant _IOCTLQueryGUID = 14. -/
def _IOCTLQueryGUID : Nat := 14

/-- Source constant _IOCTLQueryMDM = 12. -/
def _IOCTLQueryMDM : Nat := 12

/-- Source constant _IOCTLRescan = 10. -/
def _IOCTLRescan : Nat := 10

/-- Op-code issued by DrvCfgQueryGUID: _IO(_IOCTLBase, _IOCTLQueryGUID). -/
def guidOpCode : Nat := _IO _IOCTLBase _IOCTLQueryGUID

/-- Op-code issued by DrvCfgQuerySystems: _IO(_IOCTLBase, _IOCTLQueryMDM). -/
def mdmOpCode : Nat := _IO _IOCTLBase _IOCTLQueryMDM

/-- Op-code issued by DrvCfgQueryRescan: _IO(_IOCTLBase, _IOCTLRescan). -/
def rescanOpCode : Nat := _IO _IOCTLBase _IOCTLRescan

/-- Source constant mockGUID. -/
def mockGUID : String := "9E56672F-2F4B-4A42-BFF4-88B6846FBFDA"

/-- Source constant mockSystem. -/
def mockSystem : String := "000000000001"

/- ------------------------------------------------------------------
   Driver response structures.
   ------------------------------------------------------------------ -/

/-- Source struct ioctlGUID: rc [8]byte, uuid [16]byte, netIDMagic uint32,
netIDTime uint32.  Byte arrays are lists of byte values; their fixed
lengths (8 and 16) are recorded where a theorem needs them. -/
structure IoctlGUID where
  rc : List Nat
  uuidBytes : List Nat
  netIDMagic : Nat
  netIDTime : Nat
  deriving DecidableEq

/-- Source struct ioctlMdmInfo (the fields the decode loop reads, plus the
remaining integer fields; the 16 opaque 24-byte address slots are never
read by the decode loop and are not modelled). -/
structure IoctlMdmInfo where
  mdmIDL : Nat
  mdmIDH : Nat
  sdcIDL : Nat
  sdcIDH : Nat
  installIDL : Nat
  installIDH : Nat
  numSockAddrs : Nat
  deriving DecidableEq

def zeroMdm : IoctlMdmInfo := ⟨0, 0, 0, 0, 0, 0, 0⟩

/-- Source struct ConfiguredCluster. -/
structure ConfiguredCluster where
  SystemID : String
  SdcID : String
  deriving DecidableEq

/-- Source struct ioctlQueryMDMs: rc [8]byte, numMdms uint16, 4 filler
bytes, mdms [20]ioctlMdmInfo.  The mdms field is the fixed Go array of
capacity 20 (its length is 20 in every real buffer; theorems that depend
on the capacity carry that fact explicitly).  numMdms is set to 20 by the
caller before the ioctl and overwritten by the driver with the number of
records it reports; the modelled value is the driver-written one. -/
structure IoctlQueryMDMs where
  rc : List Nat
  numMdms : Nat
  mdms : List IoctlMdmInfo
  deriving DecidableEq

/-- The decode of one ioctlMdmInfo record into a ConfiguredCluster:
SystemID = sprintf "%8.8x%8.8x" mdmIDH mdmIDL,
SdcID = sprintf "%8.8x%8.8x" sdcIDH sdcIDL. -/
def mdmToCluster (m : IoctlMdmInfo) : ConfiguredCluster :=
  { SystemID := hex8 m.mdmIDH ++ hex8 m.mdmIDL
    SdcID := hex8 m.sdcIDH ++ hex8 m.sdcIDL }

/- ------------------------------------------------------------------
   Device channel operations.

   Each operation takes:
     mockMode    - the value of the package global SCINIMockMode;
     openResult  - the outcome of os.Open(SDCDevice);
     ioctlResult - the outcome of the ioctl syscall: on success, the
                   response the driver wrote into the buffer.
   The hex/ParseInt return-code step of the source,
     strconv.ParseInt(hex.EncodeToString(buf.rc[0:1]), 16, 64),
   encodes byte 0 of rc as two hex digits and parses them back in base
   16: its value is exactly that byte, i.e. rc.headD 0 % 256 (the % 256
   records that the field is one byte; ParseInt cannot fail on a two-digit
   hex string, and the source ignores its error anyway).
   ------------------------------------------------------------------ -/

/-- The return-code step shared by the two decode paths: ParseInt of the
hex encoding of byte 0 of the rc field is exactly that byte's value. -/
def rcByte (rc : List Nat) : Nat := rc.headD 0 % 256

/-- Source func DrvCfgQueryGUID (drv_cfg source file, lines 55-87). -/
def DrvCfgQueryGUID (mockMode : Bool) (openResult : Except String Unit)
    (ioctlResult : Except String IoctlGUID) : Except String String :=
  if mockMode then .ok mockGUID
  else
    match openResult with
    | .error e => .error e
    | .ok _ =>
      match ioctlResult with
      | .error e => .error ("QueryGUID error: " ++ e)
      | .ok buf =>
        let rc := rcByte buf.rc
        if rc ≠ 65 then
          .error ("Request to query GUID failed, RC=" ++ toString rc)
        else
          .ok (guidFromBytes buf.uuidBytes)

/-- Source func DrvCfgQueryRescan (drv_cfg source file, lines 89-112).
The function never consults SCINIMockMode (the mockMode argument is
deliberately unused, mirroring the source), and it performs no check of
the returned code: it formats rc in base 10 and returns it with the nil
error from the ioctl. -/
def DrvCfgQueryRescan (mockMode : Bool) (openResult : Except String Unit)
    (ioctlResult : Except String Int) : Except String String :=
  match openResult with
  | .error _ => .error "Powerflex SDC is not installed"
  | .ok _ =>
    match ioctlResult with
    | .error e => .error ("Rescan error: " ++ e)
    | .ok rc => .ok (toString rc)

/-- Source func DrvCfgQuerySystems (drv_cfg source file, lines 151-205).
The decode loop runs i from 0 to numMdms-1 indexing the fixed array
buf.mdms; Go's runtime bounds check panics as soon as i reaches the array
length, so a driver-reported count exceeding the capacity is a panic, not
an error.  For counts within capacity the loop is List.take + map. -/
def DrvCfgQuerySystems (mockMode : Bool) (openResult : Except String Unit)
    (ioctlResult : Except String IoctlQueryMDMs) :
    GoOutcome (List ConfiguredCluster) :=
  if mockMode then
    .ok [{ SystemID := mockSystem, SdcID := mockGUID }]
  else
    match openResult with
    | .error e => .error e
    | .ok _ =>
      match ioctlResult with
      | .error e => .error ("queryMDM error: " ++ e)
      | .ok buf =>
        let rc := rcByte buf.rc
        if rc ≠ 65 then
          .error ("Request to query MDM failed, RC=" ++ toString rc)
        else if buf.numMdms ≤ buf.mdms.length then
          .ok ((buf.mdms.take buf.numMdms).map mdmToCluster)
        else
          .panic "runtime error: index out of range"

/- ------------------------------------------------------------------
   REST session layer (api.go).
   ------------------------------------------------------------------ -/

/-- An HTTP response as the session layer observes it: the status code and
the outcome of reading the body (ioutil.ReadAll may fail; on success the
raw body string).  The dispatchers' dead resp == nil branch of the source
is not modelled: DoAndGetResponseBody never returns a nil response with a
nil error. -/
structure HTTPResponse where
  statusCode : Nat
  body : Except String String
  deriving DecidableEq

/-- Go unicode.IsSpace restricted to the characters that can occur in the
Latin-1 range: space, tab, newline, vertical tab, form feed, carriage
return, next line (U+0085) and no-break space (U+00A0). -/
def goIsSpace (c : Char) : Bool :=
  c = ' ' || c = '\t' || c = '\n' || c = Char.ofNat 11 || c = Char.ofNat 12 ||
  c = '\r' || c = Char.ofNat 133 || c = Char.ofNat 160

def trimLeftP (p : Char → Bool) (l : List Char) : List Char := l.dropWhile p

def trimRightP (p : Char → Bool) (l : List Char) : List Char :=
  (l.reverse.dropWhile p).reverse

/-- strings.TrimSpace. -/
def goTrimSpace (s : String) : String :=
  ⟨trimRightP goIsSpace (trimLeftP goIsSpace s.toList)⟩

def isQuoteChar (c : Char) : Bool := c = '\"'

/-- strings.TrimLeft(s, quote) then strings.TrimRight(s, quote). -/
def goTrimQuotes (s : String) : String :=
  ⟨trimRightP isQuoteChar (trimLeftP isQuoteChar s.toList)⟩

/-- The whitespace-and-quote stripping extractString applies to a body it
managed to read: TrimSpace, then TrimLeft of the quote character, then
TrimRight of the quote character. -/
def goTrimString (s : String) : String := goTrimQuotes (goTrimSpace s)

/-- Source func extractString (api.go lines 233-251): errBodyRead when
reading the body fails, otherwise the trimmed body string. -/
def extractString (body : Except String String) : Except String String :=
  match body with
  | .error _ => .error "error reading body"
  | .ok bs => .ok (goTrimString bs)

/- ------------------------------------------------------------------
   The version pattern of getVersion (api.go line 97):
       regexp.MustCompile of the pattern (anchored both ends)
       caret ( \d+? \. \d+? ) dot-star dollar
   with LAZY quantifiers on both digit groups.  Go regexp (RE2) uses
   leftmost-first submatch semantics equivalent to a backtracking search,
   dot does not match newline, and dollar without the m flag matches only
   at end of text.  Consequences, derived by tracing that search:
     * the first lazy digit group can only extend over digits, so a match
       forces it to be exactly the maximal leading digit run, and the
       character after that run must be the literal dot;
     * the second lazy digit group matches exactly ONE digit whenever
       dot-star-dollar can take the rest, i.e. whenever the remainder
       after that one digit contains no newline (dot-star cannot cross a
       newline and the digit class cannot consume one either, so a later
       newline kills every continuation);
     * therefore the submatch, when it exists, is
       leading-digit-run ++ dot ++ first-minor-digit.
   ------------------------------------------------------------------ -/

/-- Go isDigit for the regexp digit class (ASCII 0-9). -/
def isDigitCh (c : Char) : Bool := '0' ≤ c && c ≤ '9'

/-- FindStringSubmatch group 1 of the source's lazy version pattern,
derived as described above: the leading digit run, the dot, and exactly
one minor digit, provided the remainder contains no newline. -/
def versionSubmatchL (s : List Char) : Option (List Char) :=
  let maj := s.takeWhile isDigitCh
  if maj.isEmpty then none
  else
    match s.dropWhile isDigitCh with
    | '.' :: d :: rest =>
      if isDigitCh d && !(rest.contains '\n') then some (maj ++ ['.', d])
      else none
    | _ => none

/-- api.go lines 97-101: the submatch when the pattern matches, the whole
version string unchanged otherwise. -/
def versionRXResultL (s : List Char) : List Char :=
  match versionSubmatchL s with
  | some m => m
  | none => s

/-- String-level wrapper of versionRXResultL. -/
def versionRXResult (s : String) : String := ⟨versionRXResultL s.toList⟩

/-- Source func getVersion (api.go lines 75-102): transport error is
surfaced; non-2xx is a parsed API error; otherwise the body is extracted
and the version pattern applied. -/
def getVersion (resp : Except String HTTPResponse) : Except String String :=
  match resp with
  | .error e => .error e
  | .ok r =>
    if 200 ≤ r.statusCode ∧ r.statusCode ≤ 299 then
      match extractString r.body with
      | .error e => .error e
      | .ok version => .ok (versionRXResult version)
    else
      .error ("api error status " ++ toString r.statusCode)

/-- Result of Authenticate as observed by the caller and by later calls:
the token stored in the api client after the call, the connection version
after the call, and the returned error (none = the nil error). -/
structure AuthResult where
  token : String
  version : String
  err : Option String
  deriving DecidableEq

/-- Source func Authenticate (api.go lines 129-171).

Arguments: initToken and initVersion are the stored token and
configConnect.Version before the call (line 131 copies the old version
into the fresh config); loginResp is the outcome of the api/login
request; versionResp is the outcome of the api/version request issued by
updateVersion when the version is still unset.

Faithful branch structure:
  * c.api.SetToken("") clears the previous token unconditionally before
    the login request (so initToken never survives);
  * transport error on login: error returned, token still cleared;
  * non-2xx login status: parsed API error returned, token still cleared;
  * extractString failure: the source returns Cluster{}, nil - a NIL
    error - with the token still cleared (api.go line 158);
  * token extracted: SetToken(token); if the version was unset,
    updateVersion runs getVersion: on failure the source returns the
    error "error getting version of ScaleIO" while the fresh token
    REMAINS stored; on success the version is stored and nil returned. -/
def Authenticate (initToken initVersion : String)
    (loginResp : Except String HTTPResponse)
    (versionResp : Except String HTTPResponse) : AuthResult :=
  match loginResp with
  | .error e => { token := "", version := initVersion, err := some e }
  | .ok resp =>
    if 200 ≤ resp.statusCode ∧ resp.statusCode ≤ 299 then
      match extractString resp.body with
      | .error _ => { token := "", version := initVersion, err := none }
      | .ok tok =>
        if initVersion = "" then
          match getVersion versionResp with
          | .error _ =>
            { token := tok, version := initVersion,
              err := some "error getting version of ScaleIO" }
          | .ok v => { token := tok, version := v, err := none }
        else
          { token := tok, version := initVersion, err := none }
    else
      { token := "", version := initVersion,
        err := some ("api error status " ++ toString resp.statusCode) }

/- ------------------------------------------------------------------
   Authenticated request dispatcher (api.go).
   ------------------------------------------------------------------ -/

/-- Outcome of one DoWithHeaders call as getJSONWithRetry observes it:
nil error; a *types.Error carrying an HTTP status code; or any other
error (which the type assertion in the source rejects). -/
inductive JSONCallResult where
  | success
  | typedError (status : Nat) (msg : String)
  | otherError (msg : String)
  deriving DecidableEq

/-- Final result of getJSONWithRetry. -/
inductive JSONDispatchResult where
  | ok
  | authError (msg : String)
  | failed (e : JSONCallResult)
  deriving DecidableEq

/-- Source func getJSONWithRetry (api.go lines 178-209), returning the
result together with the number of times the original request was issued
and the number of Authenticate invocations.

Arguments: first and second are the outcomes the transport would give the
two possible issuances of the request; auth is the outcome of
Authenticate if invoked.  Branches: nil first error returns immediately;
a typed error with status 401 triggers exactly one Authenticate and, if
that succeeds, exactly one re-issue whose outcome is returned unchanged
(even if it is again a 401); if Authenticate fails, the wrapped
authentication error is returned with no re-issue; every other error is
returned unchanged. -/
def getJSONWithRetry (first second : JSONCallResult)
    (auth : Except String Unit) : JSONDispatchResult × Nat × Nat :=
  match first with
  | .success => (.ok, 1, 0)
  | .typedError status msg =>
    if status = 401 then
      match auth with
      | .error ae => (.authError ("Error Authenticating: " ++ ae), 1, 1)
      | .ok _ =>
        match second with
        | .success => (.ok, 2, 1)
        | e => (.failed e, 2, 1)
    else
      (.failed (.typedError status msg), 1, 0)
  | .otherError msg => (.failed (.otherError msg), 1, 0)

/-- The checkResponse closure of getStringWithRetry (api.go lines
262-281): returns (extracted string, retry flag, error).  401 sets the
retry flag with a parsed error; any other non-2xx is a parsed error
without retry; a 2xx body is extracted, extraction failure being an error
without retry. -/
def checkResponse (resp : HTTPResponse) : String × Bool × Option String :=
  if resp.statusCode = 401 then
    ("", true, some ("api error status " ++ toString resp.statusCode))
  else if 200 ≤ resp.statusCode ∧ resp.statusCode ≤ 299 then
    match extractString resp.body with
    | .error e => ("", false, some e)
    | .ok s => (s, false, none)
  else
    ("", false, some ("api error status " ++ toString resp.statusCode))

/-- Source func getStringWithRetry (api.go lines 253-308), returning the
result with the number of request issuances and Authenticate invocations.

Faithful to the source including its final lines: after a retry the
source runs s, _, err = checkResponse(resp) and then returns s, nil -
the error of the retried attempt is assigned to err but NEVER returned,
so any failure of the second attempt (including a second 401) is
swallowed and the empty string is returned with a nil error. -/
def getStringWithRetry (first second : Except String HTTPResponse)
    (auth : Except String Unit) : Except String String × Nat × Nat :=
  match first with
  | .error e => (.error e, 1, 0)
  | .ok resp1 =>
    match checkResponse resp1 with
    | (s, _, none) => (.ok s, 1, 0)
    | (_, retry, some err1) =>
      if retry then
        match auth with
        | .error ae => (.error ("Error Authenticating: " ++ ae), 1, 1)
        | .ok _ =>
          match second with
          | .error e => (.error e, 2, 1)
          | .ok resp2 =>
            match checkResponse resp2 with
            | (s2, _, _) => (.ok s2, 2, 1)
      else
        (.error err1, 1, 0)

/- ------------------------------------------------------------------
   Resource facades (sdc and protectiondomain source files).

   Each facade delegates its HTTP call to getJSONWithRetry; for these
   claims the dispatcher call is abstracted as an Except-valued argument:
   the error it returned, or the value it decoded into the output
   variable.  When the dispatcher fails, the Go output variable keeps its
   zero value.
   ------------------------------------------------------------------ -/

/-- The fields of types.Sdc relevant to this model (the facade treats the
value opaquely; a zero value has all fields empty). -/
structure TypesSdc where
  ID : String := ""
  Name : String := ""
  SdcGUID : String := ""
  deriving DecidableEq

/-- Source struct Sdc: the wrapper NewSdc builds around a *types.Sdc (the
client pointer carried by the wrapper plays no role in the claims). -/
structure SdcWrapper where
  Sdc : TypesSdc
  deriving DecidableEq

/-- Source func (*System) GetSdcById (sdc source file, lines 59-72).
fetch is the outcome of s.client.getJSONWithRetry decoding into the
zero-initialised var sdc.  Source: if err != nil, it returns
NewSdc(s.client, &sdc) together with a NIL error, exactly like the
success path, so the fetch error is never propagated. -/
def GetSdcById (id : String) (fetch : Except String TypesSdc) :
    Except String SdcWrapper :=
  match fetch with
  | .error _ => .ok { Sdc := {} }
  | .ok v => .ok { Sdc := v }

/-- Source func (*System) ChangeSdcName (sdc source file, lines 75-93).
update is the outcome of the setSdcName POST decoding into the
zero-initialised var sdc; as in GetSdcById the error branch returns the
wrapper with a nil error. -/
def ChangeSdcName (idOfSdc name : String) (update : Except String TypesSdc) :
    Except String SdcWrapper :=
  match update with
  | .error _ => .ok { Sdc := {} }
  | .ok v => .ok { Sdc := v }

/-- The fields of types.ProtectionDomain the facade reads. -/
structure TypesProtectionDomain where
  ID : String := ""
  Name : String := ""
  deriving DecidableEq

/-- Source func (*System) GetProtectionDomain (protectiondomain source
file, lines 93-126).  linkLookup is the outcome of GetLink on the system
links (used only when pdhref is empty); fetchList is the outcome of the
GET on the link decoding into pds; fetchOne is the outcome of the GET on
pdhref decoding into pd.  When pdhref is non-empty the returned list is
exactly the singleton of the fetched domain (pds starts nil and pd is
appended to it). -/
def GetProtectionDomain (pdhref : String)
    (linkLookup : Except String String)
    (fetchList : Except String (List TypesProtectionDomain))
    (fetchOne : Except String TypesProtectionDomain) :
    Except String (List TypesProtectionDomain) :=
  if pdhref = "" then
    match linkLookup with
    | .error e => .error e
    | .ok _ =>
      match fetchList with
      | .error e => .error e
      | .ok pds => .ok pds
  else
    match fetchOne with
    | .error e => .error e
    | .ok pd => .ok [pd]

/-- Source func (*System) FindProtectionDomain (protectiondomain source
file, lines 129-145).  The loop returns the first domain satisfying
pd.ID == id || pd.Name == name || href != ""; List.find? is that loop. -/
def FindProtectionDomain (id name href : String)
    (linkLookup : Except String String)
    (fetchList : Except String (List TypesProtectionDomain))
    (fetchOne : Except String TypesProtectionDomain) :
    Except String TypesProtectionDomain :=
  match GetProtectionDomain href linkLookup fetchList fetchOne with
  | .error e => .error ("Error getting protection domains " ++ e)
  | .ok pds =>
    match pds.find? (fun pd => pd.ID == id || pd.Name == name || href != "") with
    | some pd => .ok pd
    | none => .error "Couldn't find protection domain"

/- ------------------------------------------------------------------
   Specification-side definition used by claim C6.
   ------------------------------------------------------------------ -/

/-- The version pattern AS THE SPEC STATES IT: anchored
caret ( \d+ \. \d+ ) dot-star dollar with GREEDY quantifiers, group 1
being the full leading major.minor substring.  Under the same RE2
semantics the group is the maximal leading digit run, the dot, and the
maximal digit run after the dot, provided the remainder contains no
newline.  This definition follows the claim's words and is compared
against the source-derived versionSubmatchL. -/
def claimedVersionSubmatchL (s : List Char) : Option (List Char) :=
  let maj := s.takeWhile isDigitCh
  if maj.isEmpty then none
  else
    match s.dropWhile isDigitCh with
    | '.' :: tail =>
      let minor := tail.takeWhile isDigitCh
      if minor.isEmpty then none
      else if (tail.dropWhile isDigitCh).contains '\n' then none
      else some (maj ++ '.' :: minor)
    | _ => none

/- ------------------------------------------------------------------
   Helper lemmas.
   ------------------------------------------------------------------ -/

/-- Splitting takeWhile / dropWhile around the first element that
falsifies the predicate. -/
theorem takeWhile_dropWhile_append (p : Char → Bool) :
    ∀ (l : List Char) (c : Char) (t : List Char), l.all p = true → p c = false →
      ((l ++ c :: t).takeWhile p = l ∧ (l ++ c :: t).dropWhile p = c :: t)
  | [], c, t, _, hc => by
    simp [List.takeWhile, List.dropWhile, hc]
  | a :: as, c, t, h, hc => by
    simp only [List.all_cons, Bool.and_eq_true] at h
    have ih := takeWhile_dropWhile_append p as c t h.2 hc
    simp [List.takeWhile, List.dropWhile, h.1, ih.1, ih.2]

/- ------------------------------------------------------------------
   Claims.
   ------------------------------------------------------------------ -/

/-- Claim C1, evaluated at its failing input.  The claim demands that a
second 401 after a successful re-authentication yields an authentication
error.  getStringWithRetry instead swallows the retried attempt's error
(its final lines assign the error of the second checkResponse to err and
then return s, nil) and reports success with the empty string; shown here
with both attempts answering 401 and re-authentication succeeding.  For
contrast, getJSONWithRetry at the same scenario does surface the second
401 error, with exactly two issuances and one Authenticate call. -/
theorem C1_second_401_swallowed :
    getStringWithRetry (Except.ok ⟨401, Except.ok ""⟩)
      (Except.ok ⟨401, Except.ok ""⟩) (Except.ok ()) = (Except.ok "", 2, 1) ∧
    getJSONWithRetry (.typedError 401 "unauthorized")
      (.typedError 401 "unauthorized") (Except.ok ()) =
      (.failed (.typedError 401 "unauthorized"), 2, 1) := by
  exact ⟨by decide, by decide⟩

/-- Claim C2, counterexample to the claim as stated: a cluster-list
response whose ioctl transport succeeds, whose return-code byte 0 IS the
success sentinel 65, but whose reported record count (25) exceeds the
array capacity; the call panics at the bounds check instead of returning
a decoded result, so "returns a decoded result if and only if byte 0
equals 65" fails in the if direction. -/
theorem C2_counterexample :
    rcByte (⟨65 :: List.replicate 7 0, 25, List.replicate 20 zeroMdm⟩ :
        IoctlQueryMDMs).rc = 65 ∧
    goIsOk (DrvCfgQuerySystems false (Except.ok ())
      (Except.ok ⟨65 :: List.replicate 7 0, 25, List.replicate 20 zeroMdm⟩)) =
      false ∧
    goIsPanic (DrvCfgQuerySystems false (Except.ok ())
      (Except.ok ⟨65 :: List.replicate 7 0, 25, List.replicate 20 zeroMdm⟩)) =
      true := by
  decide

/-- Claim C2 as amended: for a GUID query whose ioctl succeeds, the call
returns a decoded result iff byte 0 of the return-code field equals 65;
for a cluster-list query whose ioctl succeeds AND whose reported count is
within the array capacity, the same equivalence holds; and for every
cluster-list response whose return-code byte differs from 65 the call
returns the typed RC error regardless of the rest of the payload (the
return-code check precedes the decode loop). -/
theorem C2_rc_gate (g : IoctlGUID) (buf : IoctlQueryMDMs)
    (hcap : buf.numMdms ≤ buf.mdms.length) :
    (exceptIsOk (DrvCfgQueryGUID false (Except.ok ()) (Except.ok g)) = true ↔
      rcByte g.rc = 65) ∧
    (goIsOk (DrvCfgQuerySystems false (Except.ok ()) (Except.ok buf)) = true ↔
      rcByte buf.rc = 65) ∧
    (∀ buf2 : IoctlQueryMDMs, rcByte buf2.rc ≠ 65 →
      DrvCfgQuerySystems false (Except.ok ()) (Except.ok buf2) =
        GoOutcome.error
          ("Request to query MDM failed, RC=" ++ toString (rcByte buf2.rc))) := by
  refine ⟨?_, ?_, ?_⟩
  · by_cases h : rcByte g.rc = 65 <;>
      simp [DrvCfgQueryGUID, exceptIsOk, h]
  · by_cases h : rcByte buf.rc = 65 <;>
      simp [DrvCfgQuerySystems, goIsOk, h, hcap]
  · intro buf2 h
    simp [DrvCfgQuerySystems, h]

/-- Witness for C2_rc_gate at concrete buffers (return code 65, count 1
within capacity 20). -/
theorem C2_rc_gate_witness :
    exceptIsOk (DrvCfgQueryGUID false (Except.ok ())
      (Except.ok ⟨65 :: List.replicate 7 0, List.replicate 16 0, 0, 0⟩)) = true ∧
    goIsOk (DrvCfgQuerySystems false (Except.ok ())
      (Except.ok ⟨65 :: List.replicate 7 0, 1, List.replicate 20 zeroMdm⟩)) =
      true := by
  constructor
  · exact (C2_rc_gate ⟨65 :: List.replicate 7 0, List.replicate 16 0, 0, 0⟩
      ⟨65 :: List.replicate 7 0, 1, List.replicate 20 zeroMdm⟩ (by decide)).1.mpr
      (by decide)
  · exact (C2_rc_gate ⟨65 :: List.replicate 7 0, List.replicate 16 0, 0, 0⟩
      ⟨65 :: List.replicate 7 0, 1, List.replicate 20 zeroMdm⟩ (by decide)).2.1.mpr
      (by decide)

/-- Claim C3, counterexample to the claim as stated: a login exchange that
reaches a 2xx response whose body then fails to read.  This is a failing
path (no token was extracted; the stored token is the cleared empty
string), yet Authenticate returns the NIL error (api.go line 158 returns
Cluster{}, nil inside the err != nil branch), contradicting "on every
failing path a typed (non-nil) authentication error is returned". -/
theorem C3_counterexample :
    (Authenticate "previousToken" "3.5"
      (Except.ok ⟨200, Except.error "body read failed"⟩)
      (Except.error "unused")).err = none ∧
    (Authenticate "previousToken" "3.5"
      (Except.ok ⟨200, Except.error "body read failed"⟩)
      (Except.error "unused")).token = "" := by
  decide

/-- Claim C3 as amended: the previously stored token is always cleared
before the login attempt; on failing paths up to the login response
(transport error, non-2xx status) the token stays cleared and a non-nil
error is returned; when body extraction fails the token stays cleared but
the returned error is nil; and when the post-login version fetch fails
(version initially unset) a non-nil error is returned while the freshly
extracted token remains stored - so on that failing path the token is NOT
cleared. -/
theorem C3_token_and_error_paths :
    (∀ (t v : String) (vr : Except String HTTPResponse) (e : String),
      (Authenticate t v (Except.error e) vr).token = "" ∧
      (Authenticate t v (Except.error e) vr).err.isSome = true) ∧
    (∀ (t v : String) (vr : Except String HTTPResponse) (resp : HTTPResponse),
      ¬(200 ≤ resp.statusCode ∧ resp.statusCode ≤ 299) →
      (Authenticate t v (Except.ok resp) vr).token = "" ∧
      (Authenticate t v (Except.ok resp) vr).err.isSome = true) ∧
    (∀ (t v : String) (vr : Except String HTTPResponse) (sc : Nat) (e : String),
      200 ≤ sc → sc ≤ 299 →
      (Authenticate t v (Except.ok ⟨sc, Except.error e⟩) vr).token = "" ∧
      (Authenticate t v (Except.ok ⟨sc, Except.error e⟩) vr).err = none) ∧
    (∀ (t raw e : String) (sc : Nat),
      200 ≤ sc → sc ≤ 299 →
      (Authenticate t "" (Except.ok ⟨sc, Except.ok raw⟩)
        (Except.error e)).token = goTrimString raw ∧
      (Authenticate t "" (Except.ok ⟨sc, Except.ok raw⟩)
        (Except.error e)).err = some "error getting version of ScaleIO") := by
  refine ⟨?_, ?_, ?_, ?_⟩
  · intro t v vr e
    simp [Authenticate]
  · intro t v vr resp h
    simp [Authenticate, h]
  · intro t v vr sc e h1 h2
    simp [Authenticate, extractString, h1, h2]
  · intro t raw e sc h1 h2
    simp [Authenticate, extractString, getVersion, h1, h2]

/-- Witness for C3_token_and_error_paths: a transport failure on login at
concrete inputs clears the token and surfaces a non-nil error. -/
theorem C3_token_and_error_paths_witness :
    (Authenticate "tok0" "3.5" (Except.error "connection refused")
      (Except.error "unused")).token = "" ∧
    (Authenticate "tok0" "3.5" (Except.error "connection refused")
      (Except.error "unused")).err.isSome = true :=
  C3_token_and_error_paths.1 "tok0" "3.5" (Except.error "unused")
    "connection refused"

/-- Claim C4, counterexample to the claim as stated: with the driver
present and the ioctl succeeding with scan result code 7 - not the
success sentinel 65 - DrvCfgQueryRescan nevertheless returns "7" with a
nil error: the embedded return code is never validated against the
sentinel. -/
theorem C4_counterexample :
    DrvCfgQueryRescan false (Except.ok ()) (Except.ok 7) = Except.ok "7" ∧
    (7 : Int) ≠ 65 := by
  exact ⟨rfl, by decide⟩

/-- Claim C4 as amended: DrvCfgQueryRescan performs NO validation of the
returned code - whenever open and ioctl succeed it returns the code
formatted in base 10 with a nil error, for every code value; it has no
mock-mode shortcut (the SCINIMockMode flag is ignored), so a missing
driver device is always a failure, also in mock mode; and an ioctl
failure is surfaced as a rescan error. -/
theorem C4_no_rc_validation :
    (∀ (mock : Bool) (rc : Int),
      DrvCfgQueryRescan mock (Except.ok ()) (Except.ok rc) =
        Except.ok (toString rc)) ∧
    (∀ (mock : Bool) (e : String) (io : Except String Int),
      DrvCfgQueryRescan mock (Except.error e) io =
        Except.error "Powerflex SDC is not installed") ∧
    (∀ (mock : Bool) (e : String),
      DrvCfgQueryRescan mock (Except.ok ()) (Except.error e) =
        Except.error ("Rescan error: " ++ e)) :=
  ⟨fun _ _ => rfl, fun _ _ _ => rfl, fun _ _ => rfl⟩

/-- Claim C5, counterexample to the claim as stated: a driver response
with return code 65 and reported record count 21 - one past the fixed
capacity 20 - makes DrvCfgQuerySystems hit the runtime bounds check of
buf.mdms[i] and panic; the claim required a structural-invariant
violation ERROR and no panic. -/
theorem C5_counterexample :
    goIsPanic (DrvCfgQuerySystems false (Except.ok ())
      (Except.ok ⟨65 :: List.replicate 7 0, 21, List.replicate 20 zeroMdm⟩)) =
      true := by
  decide

/-- Claim C5 as amended: DrvCfgQuerySystems returns a decoded result or a
typed error - never a panic - whenever the open or the ioctl fails, and
whenever the reported record count is within the fixed array capacity;
but a response passing the return-code check with a count exceeding the
capacity panics at the Go bounds check (it is not surfaced as an error,
though the panic does prevent out-of-bounds memory access). -/
theorem C5_no_panic_within_capacity :
    (∀ (mock : Bool) (openR : Except String Unit) (e : String),
      goIsPanic (DrvCfgQuerySystems mock openR (Except.error e)) = false) ∧
    (∀ (mock : Bool) (e : String) (io : Except String IoctlQueryMDMs),
      goIsPanic (DrvCfgQuerySystems mock (Except.error e) io) = false) ∧
    (∀ (mock : Bool) (openR : Except String Unit) (buf : IoctlQueryMDMs),
      buf.numMdms ≤ buf.mdms.length →
      goIsPanic (DrvCfgQuerySystems mock openR (Except.ok buf)) = false) ∧
    (∀ buf : IoctlQueryMDMs, buf.mdms.length < buf.numMdms →
      rcByte buf.rc = 65 →
      goIsPanic (DrvCfgQuerySystems false (Except.ok ()) (Except.ok buf)) =
        true) := by
  refine ⟨?_, ?_, ?_, ?_⟩
  · intro mock openR e
    cases mock <;> cases openR <;> simp [DrvCfgQuerySystems, goIsPanic]
  · intro mock e io
    cases mock <;> simp [DrvCfgQuerySystems, goIsPanic]
  · intro mock openR buf h
    cases mock <;> cases openR <;>
      by_cases hrc : rcByte buf.rc = 65 <;>
        simp [DrvCfgQuerySystems, goIsPanic, hrc, h]
  · intro buf h hrc
    simp [DrvCfgQuerySystems, goIsPanic, hrc, Nat.not_le.mpr h]

/-- Witness for C5_no_panic_within_capacity: a full-capacity response
(count 20 of 20) decodes without a panic. -/
theorem C5_no_panic_within_capacity_witness :
    goIsPanic (DrvCfgQuerySystems false (Except.ok ())
      (Except.ok ⟨65 :: List.replicate 7 0, 20, List.replicate 20 zeroMdm⟩)) =
      false :=
  C5_no_panic_within_capacity.2.2.1 false (Except.ok ())
    ⟨65 :: List.replicate 7 0, 20, List.replicate 20 zeroMdm⟩ (by decide)

/-- Claim C6, counterexample to the claim as stated: "2.10" matches the
claim's pattern with leading major.minor substring "2.10", but the
source's lazy pattern yields "2.1" - the minor part is truncated to its
first digit. -/
theorem C6_counterexample :
    claimedVersionSubmatchL "2.10".toList = some "2.10".toList ∧
    versionRXResultL "2.10".toList = "2.1".toList ∧
    versionRXResult "2.10" = "2.1" := by
  refine ⟨by decide, by decide, by decide⟩

/-- Claim C6 as amended: for a version string of the form
digits, dot, digit, remainder - with a non-empty all-digit major part and
no newline in the remainder - getVersion's pattern step returns the major
digits, the dot, and exactly the FIRST digit of the minor part (the
source pattern uses lazy quantifiers); for every string the pattern does
not match, the full string is returned unchanged. -/
theorem C6_lazy_version_truncation :
    (∀ (maj rest : List Char) (d : Char),
      maj ≠ [] → maj.all isDigitCh = true → isDigitCh d = true →
      rest.contains '\n' = false →
      versionRXResultL (maj ++ '.' :: d :: rest) = maj ++ ['.', d]) ∧
    (∀ s : List Char, versionSubmatchL s = none → versionRXResultL s = s) := by
  constructor
  · intro maj rest d hne hall hd hnl
    match maj, hne with
    | a :: as, _ =>
      have hsplit := takeWhile_dropWhile_append isDigitCh (a :: as) '.'
        (d :: rest) hall (by decide)
      simp only [versionRXResultL, versionSubmatchL, hsplit.1, hsplit.2]
      have hnl2 : '\n' ∉ rest := by simpa using hnl
      simp [hd, hnl2]
  · intro s h
    simp [versionRXResultL, h]

/-- Witness for C6_lazy_version_truncation at the concrete string made of
major part 3, a dot, minor digits 1 4 6: the result keeps one minor
digit. -/
theorem C6_lazy_version_truncation_witness :
    versionRXResultL (['3'] ++ '.' :: '1' :: ['4', '6']) = ['3'] ++ ['.', '1'] :=
  C6_lazy_version_truncation.1 ['3'] ['4', '6'] '1' (by decide) (by decide)
    (by decide) (by decide)

set_option maxRecDepth 4000 in
/-- Claim C7, counterexample to the claim as stated: in the GUID op-code
the byte at the class position (bits 8-15) is 97 - the base character -
not 14, and no command number below 256 makes the claimed value
(0 shifted 30) or (14 shifted 8) or command equal the real op-code. -/
theorem C7_counterexample :
    (guidOpCode >>> 8) % 256 = 97 ∧ (97 : Nat) ≠ 14 ∧
    ((List.range 256).all fun c =>
      guidOpCode != ((0 <<< 30) ||| (14 <<< 8) ||| c)) = true := by
  decide

/-- Claim C7 as amended: the three op-codes are packed as
(dir shifted 30) or (class shifted 8) or command or (size shifted 16)
with direction and size zero, class byte 97 (the base character, code
point of lower-case a) and command numbers 14 (GUID), 12 (MDM list), 10
(rescan); the GUID op-code is 24846, its direction field decodes to 0,
its class byte to 97 and its command byte to 14. -/
theorem C7_opcode_packing :
    guidOpCode = (0 <<< 30) ||| (97 <<< 8) ||| 14 ∧
    mdmOpCode = (0 <<< 30) ||| (97 <<< 8) ||| 12 ∧
    rescanOpCode = (0 <<< 30) ||| (97 <<< 8) ||| 10 ∧
    guidOpCode = 24846 ∧
    guidOpCode >>> 30 = 0 ∧
    (guidOpCode >>> 8) % 256 = 97 ∧
    guidOpCode % 256 = 14 ∧
    (guidOpCode >>> 16) % 16384 = 0 := by
  decide

/-- Claim C8: in mock mode DrvCfgQueryGUID returns the fixed sentinel
GUID with no error and DrvCfgQuerySystems returns exactly one
ConfiguredCluster with SystemID 000000000001 and SdcID the sentinel GUID,
for EVERY device-open and ioctl outcome - the device is never consulted. -/
theorem C8_mock_mode :
    (∀ (openR : Except String Unit) (io : Except String IoctlGUID),
      DrvCfgQueryGUID true openR io =
        Except.ok "9E56672F-2F4B-4A42-BFF4-88B6846FBFDA") ∧
    (∀ (openR : Except String Unit) (io : Except String IoctlQueryMDMs),
      DrvCfgQuerySystems true openR io =
        GoOutcome.ok [{ SystemID := "000000000001",
                        SdcID := "9E56672F-2F4B-4A42-BFF4-88B6846FBFDA" }]) :=
  ⟨fun _ _ => rfl, fun _ _ => rfl⟩

/-- Claim C9: when the underlying dispatcher call fails, GetSdcById and
ChangeSdcName both return a wrapper around the zero-value types.Sdc with
a nil error - the fetch/update error is swallowed. -/
theorem C9_errors_swallowed :
    (∀ (id e : String),
      GetSdcById id (Except.error e) = Except.ok { Sdc := {} }) ∧
    (∀ (id name e : String),
      ChangeSdcName id name (Except.error e) = Except.ok { Sdc := {} }) :=
  ⟨fun _ _ => rfl, fun _ _ _ => rfl⟩

/-- Claim C10: with a non-empty href whose fetch succeeds,
FindProtectionDomain returns the first (and only) fetched protection
domain with no error, for every id and name argument - the per-element
condition contains the disjunct href != "" which is then always true. -/
theorem C10_href_short_circuit (id name href : String) (h : href ≠ "")
    (linkLookup : Except String String)
    (fetchList : Except String (List TypesProtectionDomain))
    (pd : TypesProtectionDomain) :
    FindProtectionDomain id name href linkLookup fetchList (Except.ok pd) =
      Except.ok pd := by
  have hb : (href != "") = true := bne_iff_ne.mpr h
  simp [FindProtectionDomain, GetProtectionDomain, h, hb, List.find?]

/-- Witness for C10_href_short_circuit at concrete arguments whose id and
name match nothing. -/
theorem C10_href_short_circuit_witness :
    FindProtectionDomain "idA" "nameB" "/api/pd/99" (Except.error "nolink")
      (Except.error "nolist") (Except.ok { ID := "x", Name := "y" }) =
      Except.ok { ID := "x", Name := "y" } :=
  C10_href_short_circuit "idA" "nameB" "/api/pd/99" (by decide)
    (Except.error "nolink") (Except.error "nolist") { ID := "x", Name := "y" }
